import Mathlib

/-
Verification development for the stateful hash-based signature samples
(XMSS / XMSS^MT / HSS sign, detach and verify programs).

The sample programs under src/ orchestrate load -> capacity check -> sign ->
persist -> release around an external cryptographic toolkit.  The programs
themselves (showcase_xmss_sign, showcase_hss_sign, showcase_xmss_detach,
showcase_xmssmt_detach, showcase_xmssmt_verify, save_data, secure_memzero,
parse_commandline) are embedded here statement by statement.  The toolkit
primitives (iqr_XMSSSign, iqr_XMSSDetachState, signature counting,
state import and export) are not part of this repository; they are modelled
from the specification of the CryptoEngine interface, and every definition
doing so says so in its doc comment.
-/

/-- Return codes of the toolkit, restricted to the constructors the embedded
programs actually produce.  IQR_EINSUFFICIENTCAPACITY models the
specification's InsufficientCapacityError for the detach primitive. -/
inductive iqr_retval where
  | IQR_OK
  | IQR_EBADVALUE
  | IQR_ENOMEM
  | IQR_ESTATEDEPLETED
  | IQR_EINSUFFICIENTCAPACITY
deriving DecidableEq, Repr

/-- A byte blob: file and buffer contents are lists of byte values. -/
abbrev Blob := List Nat

/-- The file system visible to a sample program: an association list from
file names to blob contents.  A name that is absent is a file that does not
exist (its fopen for reading fails). -/
abbrev FS := List (String × Blob)

/-- Read a file: the content stored under the first matching name. -/
def fsRead (fs : FS) (fname : String) : Option Blob :=
  fs.lookup fname

/-- Store a blob under a name, replacing an existing entry or appending. -/
def fsWrite (fs : FS) (fname : String) (data : Blob) : FS :=
  match fs with
  | [] => [(fname, data)]
  | (g, c) :: rest =>
      if g = fname then (fname, data) :: rest else (g, c) :: fsWrite rest fname data

/-- Observable events of one program run, in program order:
engine primitives invoked and file writes performed by save_data.
fileWrite records a save_data call that completed and left the file holding
data; fileTouch records a save_data call that failed after fopen("wb") had
already truncated the file, leaving it holding the partial data shown. -/
inductive Event where
  | engineSign
  | engineDetach
  | fileWrite (fname : String) (data : Blob)
  | fileTouch (fname : String) (data : Blob)
deriving DecidableEq, Repr

/-- Which of the two fallible steps of save_data fails, if any.
openFail: fopen returns NULL, the target file is untouched.
writeFail k: fopen("wb") succeeded (truncating the target), then fwrite
reported an error with only the first k bytes written. -/
inductive SaveFault where
  | ok
  | openFail
  | writeFail (written : Nat)
deriving DecidableEq, Repr

/-- Result of save_data: the returned code, the file system afterwards and
the events emitted. -/
structure SaveResult where
  ret : iqr_retval
  fs : FS
  ev : List Event
deriving DecidableEq, Repr

/-- Embeds save_data from src/xmss/sign/main.c lines 337-359 (the same
function appears verbatim in the hss and detach samples): fopen(fname,"wb"),
which truncates an existing file in place, then a single fwrite checked via
ferror, then fclose.  A failed fopen returns IQR_EBADVALUE with the file
untouched; a failed fwrite returns IQR_EBADVALUE with the file left holding
whatever prefix was written over the truncated file.  There is no
write-to-temporary, rename or fsync. -/
def save_data (fault : SaveFault) (fs : FS) (fname : String) (data : Blob) : SaveResult :=
  match fault with
  | .openFail => ⟨.IQR_EBADVALUE, fs, []⟩
  | .writeFail k => ⟨.IQR_EBADVALUE, fsWrite fs fname (data.take k), [.fileTouch fname (data.take k)]⟩
  | .ok => ⟨.IQR_OK, fsWrite fs fname data, [.fileWrite fname data]⟩

/-- Embeds secure_memzero from src/xmss/sign/main.c lines 540-567: every
byte of the buffer is overwritten with 0x00 (the volatile-pointer fallback
loop; the memset_s / SecureZeroMemory / explicit_bzero branches have the
same effect on the buffer contents). -/
def secure_memzero (b : Blob) : Blob :=
  b.map fun _ => 0

/-- Private-key state of the CryptoEngine.  Modelled from the spec: the
toolkit state object is opaque in this repository; per the data model a
state is a cursor over a contiguous leaf range, owning exactly the unsigned
leaves of the half-open interval from next_leaf_index to leaf_end.  For a
freshly generated key, leaf_end equals total_leaves. -/
structure PrivateKeyState where
  next_leaf_index : Nat
  leaf_end : Nat
deriving DecidableEq, Repr

namespace CryptoEngine

/-- Modelled from the spec: remaining capacity of a state, as reported by
iqr_XMSSGetSignatureCount / iqr_HSSGetSignatureCount. -/
def remaining (s : PrivateKeyState) : Nat :=
  s.leaf_end - s.next_leaf_index

/-- Modelled from the spec: signature_count(state) -> (max, remaining); the
toolkit signature-count query, pure. -/
def signature_count (s : PrivateKeyState) : Nat × Nat :=
  (s.leaf_end, remaining s)

/-- Modelled from the spec: the sign primitive (iqr_XMSSSign / iqr_HSSSign).
It fails with StateDepletedError when remaining = 0, with no mutation;
otherwise it advances next_leaf_index by one and produces a signature.
Signature content is opaque; it is abstracted as the consumed leaf index. -/
def sign (s : PrivateKeyState) : iqr_retval × PrivateKeyState × Option Blob :=
  if remaining s = 0 then (.IQR_ESTATEDEPLETED, s, none)
  else (.IQR_OK, ⟨s.next_leaf_index + 1, s.leaf_end⟩, some [s.next_leaf_index])

/-- Modelled from the spec: the detach primitive (iqr_XMSSDetachState /
iqr_XMSSMTDetachState).  Precondition n between 1 and remaining; violation
fails with InsufficientCapacityError and no mutation.  On success the
detached state owns the range from the parent's next_leaf_index of length n
and the parent's cursor advances past that range. -/
def detach_state (s : PrivateKeyState) (n : Nat) :
    iqr_retval × PrivateKeyState × Option PrivateKeyState :=
  if n < 1 ∨ remaining s < n then (.IQR_EINSUFFICIENTCAPACITY, s, none)
  else (.IQR_OK, ⟨s.next_leaf_index + n, s.leaf_end⟩,
        some ⟨s.next_leaf_index, s.next_leaf_index + n⟩)

/-- Modelled from the spec: export_state serialises a state to a fixed-size
blob; the encoding is abstracted as the pair of cursor fields. -/
def export_state (s : PrivateKeyState) : Blob :=
  [s.next_leaf_index, s.leaf_end]

/-- Modelled from the spec: import_state fails with ImportError on size
mismatch or structural corruption, and inverts export_state otherwise. -/
def import_state (b : Blob) : Option PrivateKeyState :=
  match b with
  | [a, c] => if a ≤ c then some ⟨a, c⟩ else none
  | _ => none

end CryptoEngine

/-- Models iqr_XMSSImportPrivateKey / iqr_HSSImportPrivateKey at the
interface boundary: the private key is an opaque blob; import fails on an
empty (structurally invalid) blob and otherwise yields the key object,
carried as the blob itself. -/
def importPrivateKey (b : Blob) : Option Blob :=
  if b = [] then none else some b

/-- Numeric value of a decimal digit string, as computed by strtoull base
10: fold each digit into the accumulator. -/
def decimalValue (cs : List Char) : Nat :=
  cs.foldl (fun a c => 10 * a + (c.toNat - 48)) 0

/-- Embeds the num-sigs branch of parse_commandline, src/xmss/detach/main.c
lines 304-315 and src/xmssmt/detach/main.c lines 328-339: strtoull(arg,10)
parses the digits; the argument is rejected when no digit was consumed,
when a non-digit trails, or when the value overflows uint64 (strtoull
returns ULLONG_MAX with errno ERANGE); otherwise the accepted 64-bit value
is narrowed to uint32 by the cast in num_signatures = (uint32_t)val.
The model covers the plain digit strings among strtoull's inputs. -/
def parse_num_sigs (arg : String) : Option Nat :=
  let cs := arg.data
  if cs.isEmpty then none
  else if cs.all Char.isDigit then
    let v := decimalValue cs
    if v < 2 ^ 64 then some (v % 2 ^ 32) else none
  else none

/-- Result of one showcase run: the iqr_retval returned, the file system
afterwards, the event trace in program order, and the freed heap buffers of
the end cleanup block as pairs of buffer name and the content held at the
moment free() ran. -/
structure RunResult where
  ret : iqr_retval
  fs : FS
  tr : List Event
  freed : List (String × Blob)
deriving DecidableEq, Repr

/-- Injected failure points of a sign showcase: whether the calloc of the
signature buffer succeeds, and the fault mode of each save_data call. -/
structure SignFaults where
  callocOk : Bool
  stateSave : SaveFault
  sigSave : SaveFault
deriving DecidableEq, Repr

/-- Embeds the end block of showcase_xmss_sign (src/xmss/sign/main.c lines
202-215) and of showcase_hss_sign (src/hss/sign/main.c lines 171-186): if
priv_raw is non-NULL it is passed to secure_memzero, then free(sig),
free(priv_raw), free(state_raw) run in that order.  Each freed buffer is
recorded with the bytes it held when freed; only priv_raw was wiped. -/
def sign_end (priv_raw state_raw sig : Option Blob) : List (String × Blob) :=
  (match sig with
   | some b => [("sig", b)]
   | none => []) ++
  (match priv_raw with
   | some b => [("priv_raw", secure_memzero b)]
   | none => []) ++
  (match state_raw with
   | some b => [("state_raw", b)]
   | none => [])

/-- Embeds showcase_xmss_sign, src/xmss/sign/main.c lines 58-218, statement
by statement: create params (opaque, cannot fail in the model), load the
private key and state files, import both, query the signature count and
fail with IQR_ESTATEDEPLETED when no signatures remain, allocate the
signature buffer, invoke the sign primitive, export the advanced state into
state_raw in place, save the state file, then save the signature file.
Every failure jumps to the end block.  The toolkit primitives follow the
CryptoEngine model above. -/
def showcase_xmss_sign (flt : SignFaults) (fs0 : FS)
    (priv_file state_file sig_file : String) : RunResult :=
  match fsRead fs0 priv_file with
  | none => ⟨.IQR_EBADVALUE, fs0, [], sign_end none none none⟩
  | some priv_raw =>
  match fsRead fs0 state_file with
  | none => ⟨.IQR_EBADVALUE, fs0, [], sign_end (some priv_raw) none none⟩
  | some state_raw =>
  match importPrivateKey priv_raw with
  | none => ⟨.IQR_EBADVALUE, fs0, [], sign_end (some priv_raw) (some state_raw) none⟩
  | some _priv =>
  match CryptoEngine.import_state state_raw with
  | none => ⟨.IQR_EBADVALUE, fs0, [], sign_end (some priv_raw) (some state_raw) none⟩
  | some state =>
  if (CryptoEngine.signature_count state).2 = 0 then
    ⟨.IQR_ESTATEDEPLETED, fs0, [], sign_end (some priv_raw) (some state_raw) none⟩
  else if flt.callocOk = false then
    ⟨.IQR_ENOMEM, fs0, [], sign_end (some priv_raw) (some state_raw) none⟩
  else
  match CryptoEngine.sign state with
  | (r, _, none) =>
      ⟨r, fs0, [.engineSign], sign_end (some priv_raw) (some state_raw) (some [])⟩
  | (_, advanced, some sig) =>
  let state_raw2 := CryptoEngine.export_state advanced
  let s1 := save_data flt.stateSave fs0 state_file state_raw2
  if s1.ret ≠ .IQR_OK then
    ⟨s1.ret, s1.fs, .engineSign :: s1.ev, sign_end (some priv_raw) (some state_raw2) (some sig)⟩
  else
  let s2 := save_data flt.sigSave s1.fs sig_file sig
  if s2.ret ≠ .IQR_OK then
    ⟨s2.ret, s2.fs, .engineSign :: (s1.ev ++ s2.ev),
     sign_end (some priv_raw) (some state_raw2) (some sig)⟩
  else
    ⟨.IQR_OK, s2.fs, .engineSign :: (s1.ev ++ s2.ev),
     sign_end (some priv_raw) (some state_raw2) (some sig)⟩

/-- Embeds showcase_hss_sign, src/hss/sign/main.c lines 58-187: identical
to showcase_xmss_sign except that there is no signature-count query and no
depletion pre-check before the sign primitive; the first capacity query
happens only after both files were saved.  A depleted state is detected by
iqr_HSSSign itself. -/
def showcase_hss_sign (flt : SignFaults) (fs0 : FS)
    (priv_file state_file sig_file : String) : RunResult :=
  match fsRead fs0 priv_file with
  | none => ⟨.IQR_EBADVALUE, fs0, [], sign_end none none none⟩
  | some priv_raw =>
  match fsRead fs0 state_file with
  | none => ⟨.IQR_EBADVALUE, fs0, [], sign_end (some priv_raw) none none⟩
  | some state_raw =>
  match importPrivateKey priv_raw with
  | none => ⟨.IQR_EBADVALUE, fs0, [], sign_end (some priv_raw) (some state_raw) none⟩
  | some _priv =>
  match CryptoEngine.import_state state_raw with
  | none => ⟨.IQR_EBADVALUE, fs0, [], sign_end (some priv_raw) (some state_raw) none⟩
  | some state =>
  if flt.callocOk = false then
    ⟨.IQR_ENOMEM, fs0, [], sign_end (some priv_raw) (some state_raw) none⟩
  else
  match CryptoEngine.sign state with
  | (r, _, none) =>
      ⟨r, fs0, [.engineSign], sign_end (some priv_raw) (some state_raw) (some [])⟩
  | (_, advanced, some sig) =>
  let state_raw2 := CryptoEngine.export_state advanced
  let s1 := save_data flt.stateSave fs0 state_file state_raw2
  if s1.ret ≠ .IQR_OK then
    ⟨s1.ret, s1.fs, .engineSign :: s1.ev, sign_end (some priv_raw) (some state_raw2) (some sig)⟩
  else
  let s2 := save_data flt.sigSave s1.fs sig_file sig
  if s2.ret ≠ .IQR_OK then
    ⟨s2.ret, s2.fs, .engineSign :: (s1.ev ++ s2.ev),
     sign_end (some priv_raw) (some state_raw2) (some sig)⟩
  else
    ⟨.IQR_OK, s2.fs, .engineSign :: (s1.ev ++ s2.ev),
     sign_end (some priv_raw) (some state_raw2) (some sig)⟩

/-- Injected failure points of a detach showcase: fault mode of the parent
state save, whether the calloc of the detached-state buffer succeeds, and
fault mode of the detached-state save. -/
structure DetachFaults where
  stateSave : SaveFault
  callocOk : Bool
  detachedSave : SaveFault
deriving DecidableEq, Repr

/-- Embeds the end block of showcase_xmss_detach (src/xmss/detach/main.c
lines 167-183) and showcase_xmssmt_detach (src/xmssmt/detach/main.c lines
169-185): if priv_raw is non-NULL it is passed to secure_memzero, then
free(priv_raw), free(state_raw), free(detached_state_raw) run in order. -/
def detach_end (priv_raw state_raw detached_raw : Option Blob) : List (String × Blob) :=
  (match priv_raw with
   | some b => [("priv_raw", secure_memzero b)]
   | none => []) ++
  (match state_raw with
   | some b => [("state_raw", b)]
   | none => []) ++
  (match detached_raw with
   | some b => [("detached_state_raw", b)]
   | none => [])

/-- Embeds showcase_xmss_detach, src/xmss/detach/main.c lines 54-184:
create params, load and import the private key and state, invoke the detach
primitive, query both signature counts, export the advanced parent state
into state_raw in place and save it to the state file, then allocate
detached_state_raw, export the detached state (into state_raw again: the
source reuses the parent buffer on line 156 and the calloc result stays
zero-filled) and save it to the detached-state file.  Every failure jumps
to the end block. -/
def showcase_xmss_detach (flt : DetachFaults) (fs0 : FS)
    (priv_file state_file : String) (num_signatures : Nat)
    (detached_state_file : String) : RunResult :=
  match fsRead fs0 priv_file with
  | none => ⟨.IQR_EBADVALUE, fs0, [], detach_end none none none⟩
  | some priv_raw =>
  match fsRead fs0 state_file with
  | none => ⟨.IQR_EBADVALUE, fs0, [], detach_end (some priv_raw) none none⟩
  | some state_raw =>
  match importPrivateKey priv_raw with
  | none => ⟨.IQR_EBADVALUE, fs0, [], detach_end (some priv_raw) (some state_raw) none⟩
  | some _priv =>
  match CryptoEngine.import_state state_raw with
  | none => ⟨.IQR_EBADVALUE, fs0, [], detach_end (some priv_raw) (some state_raw) none⟩
  | some state =>
  match CryptoEngine.detach_state state num_signatures with
  | (r, _, none) =>
      ⟨r, fs0, [.engineDetach], detach_end (some priv_raw) (some state_raw) none⟩
  | (_, advanced, some detached) =>
  let state_raw2 := CryptoEngine.export_state advanced
  let s1 := save_data flt.stateSave fs0 state_file state_raw2
  if s1.ret ≠ .IQR_OK then
    ⟨s1.ret, s1.fs, .engineDetach :: s1.ev, detach_end (some priv_raw) (some state_raw2) none⟩
  else if flt.callocOk = false then
    ⟨.IQR_ENOMEM, s1.fs, .engineDetach :: s1.ev,
     detach_end (some priv_raw) (some state_raw2) none⟩
  else
  let state_raw3 := CryptoEngine.export_state detached
  let s2 := save_data flt.detachedSave s1.fs detached_state_file state_raw3
  ⟨s2.ret, s2.fs, .engineDetach :: (s1.ev ++ s2.ev),
   detach_end (some priv_raw) (some state_raw3) (some [])⟩

/-- Embeds showcase_xmssmt_detach, src/xmssmt/detach/main.c lines 56-186:
line for line the same orchestration as showcase_xmss_detach (the XMSS^MT
sample differs only in variant selection, uint64 counters and message
strings, none of which change the modelled behaviour). -/
def showcase_xmssmt_detach (flt : DetachFaults) (fs0 : FS)
    (priv_file state_file : String) (num_signatures : Nat)
    (detached_state_file : String) : RunResult :=
  match fsRead fs0 priv_file with
  | none => ⟨.IQR_EBADVALUE, fs0, [], detach_end none none none⟩
  | some priv_raw =>
  match fsRead fs0 state_file with
  | none => ⟨.IQR_EBADVALUE, fs0, [], detach_end (some priv_raw) none none⟩
  | some state_raw =>
  match importPrivateKey priv_raw with
  | none => ⟨.IQR_EBADVALUE, fs0, [], detach_end (some priv_raw) (some state_raw) none⟩
  | some _priv =>
  match CryptoEngine.import_state state_raw with
  | none => ⟨.IQR_EBADVALUE, fs0, [], detach_end (some priv_raw) (some state_raw) none⟩
  | some state =>
  match CryptoEngine.detach_state state num_signatures with
  | (r, _, none) =>
      ⟨r, fs0, [.engineDetach], detach_end (some priv_raw) (some state_raw) none⟩
  | (_, advanced, some detached) =>
  let state_raw2 := CryptoEngine.export_state advanced
  let s1 := save_data flt.stateSave fs0 state_file state_raw2
  if s1.ret ≠ .IQR_OK then
    ⟨s1.ret, s1.fs, .engineDetach :: s1.ev, detach_end (some priv_raw) (some state_raw2) none⟩
  else if flt.callocOk = false then
    ⟨.IQR_ENOMEM, s1.fs, .engineDetach :: s1.ev,
     detach_end (some priv_raw) (some state_raw2) none⟩
  else
  let state_raw3 := CryptoEngine.export_state detached
  let s2 := save_data flt.detachedSave s1.fs detached_state_file state_raw3
  ⟨s2.ret, s2.fs, .engineDetach :: (s1.ev ++ s2.ev),
   detach_end (some priv_raw) (some state_raw3) (some [])⟩

/-- Embeds showcase_xmssmt_verify, src/xmssmt/verify/main.c lines 50-108:
create verify-only params, load the public key and signature files, import
the public key (opaque blob, import fails when structurally empty), and
call the verify primitive.  The primitive itself is out of the repository
and is passed in as an arbitrary function vf of the public key, digest and
signature blobs; the showcase performs no writes on any path.  The result
is the returned code and the file system afterwards. -/
def showcase_xmssmt_verify (vf : Blob → Blob → Blob → Bool) (digest : Blob)
    (fs0 : FS) (pub_file sig_file : String) : iqr_retval × FS :=
  match fsRead fs0 pub_file with
  | none => (.IQR_EBADVALUE, fs0)
  | some pub_raw =>
  match fsRead fs0 sig_file with
  | none => (.IQR_EBADVALUE, fs0)
  | some sig =>
  match importPrivateKey pub_raw with
  | none => (.IQR_EBADVALUE, fs0)
  | some pub =>
  if vf pub digest sig then (.IQR_OK, fs0) else (.IQR_EBADVALUE, fs0)

/-- Embeds the showcase verify function of src/rainbow/verify/main.c (lines
56-115, symbol iqr_RainbowVerify call site): create params, load the public
key, signature and message files, import the public key, call the verify
primitive; no writes on any path. -/
def showcase_rainbow_verify (vf : Blob → Blob → Blob → Bool) (fs0 : FS)
    (pub_file sig_file message_file : String) : iqr_retval × FS :=
  match fsRead fs0 pub_file with
  | none => (.IQR_EBADVALUE, fs0)
  | some pub_raw =>
  match fsRead fs0 sig_file with
  | none => (.IQR_EBADVALUE, fs0)
  | some sig =>
  match importPrivateKey pub_raw with
  | none => (.IQR_EBADVALUE, fs0)
  | some pub =>
  match fsRead fs0 message_file with
  | none => (.IQR_EBADVALUE, fs0)
  | some message =>
  if vf pub message sig then (.IQR_OK, fs0) else (.IQR_EBADVALUE, fs0)

/-- True when the event is a save_data call that touched the named file,
whether it completed or failed mid-write. -/
def touches (fname : String) : Event → Bool
  | .fileWrite g _ => g == fname
  | .fileTouch g _ => g == fname
  | _ => false

/-- True when the event is a completed save_data write of the named file. -/
def writesOk (fname : String) : Event → Bool
  | .fileWrite g _ => g == fname
  | _ => false

/-- The sign-then-persist ordering discipline on a trace: the released file
is touched in no way before a completed durable write of the state file has
occurred.  Scanning left to right, any event on the released file before
the first completed write of the state file refutes the discipline. -/
def persistedBefore (state_file released_file : String) : List Event → Bool
  | [] => true
  | e :: rest =>
      if touches released_file e then false
      else if writesOk state_file e then true
      else persistedBefore state_file released_file rest

/-- Helper: the sign-then-persist discipline holds on every trace of the
XMSS sign showcase and the signature file is written on every successful
run. -/
theorem xmss_sign_persist_aux (flt : SignFaults) (fs0 : FS) (pf sf gf : String)
    (hbe : (sf == gf) = false) :
    persistedBefore sf gf (showcase_xmss_sign flt fs0 pf sf gf).tr = true ∧
    ((showcase_xmss_sign flt fs0 pf sf gf).ret = .IQR_OK →
      (showcase_xmss_sign flt fs0 pf sf gf).tr.any (writesOk gf) = true) := by
  obtain ⟨co, ss, gs⟩ := flt
  simp only [showcase_xmss_sign]
  rcases h1 : fsRead fs0 pf with _ | pb <;> simp only [h1]
  · exact ⟨rfl, by simp⟩
  rcases h2 : fsRead fs0 sf with _ | sb <;> simp only [h2]
  · exact ⟨rfl, by simp⟩
  rcases h3 : importPrivateKey pb with _ | pk <;> simp only [h3]
  · exact ⟨rfl, by simp⟩
  rcases h4 : CryptoEngine.import_state sb with _ | st <;> simp only [h4]
  · exact ⟨rfl, by simp⟩
  by_cases hd : (CryptoEngine.signature_count st).2 = 0
  · rw [if_pos hd]
    exact ⟨rfl, by simp⟩
  rw [if_neg hd]
  cases co
  · rw [if_pos rfl]
    exact ⟨rfl, by simp⟩
  rw [if_neg (by simp)]
  have hrem : ¬(CryptoEngine.remaining st = 0) := hd
  simp only [CryptoEngine.sign, if_neg hrem]
  cases ss <;> cases gs <;>
    simp_all [save_data, persistedBefore, touches, writesOk]

/-- Helper: the sign-then-persist discipline holds on every trace of the
HSS sign showcase and the signature file is written on every successful
run. -/
theorem hss_sign_persist_aux (flt : SignFaults) (fs0 : FS) (pf sf gf : String)
    (hbe : (sf == gf) = false) :
    persistedBefore sf gf (showcase_hss_sign flt fs0 pf sf gf).tr = true ∧
    ((showcase_hss_sign flt fs0 pf sf gf).ret = .IQR_OK →
      (showcase_hss_sign flt fs0 pf sf gf).tr.any (writesOk gf) = true) := by
  obtain ⟨co, ss, gs⟩ := flt
  simp only [showcase_hss_sign]
  rcases h1 : fsRead fs0 pf with _ | pb <;> simp only [h1]
  · exact ⟨rfl, by simp⟩
  rcases h2 : fsRead fs0 sf with _ | sb <;> simp only [h2]
  · exact ⟨rfl, by simp⟩
  rcases h3 : importPrivateKey pb with _ | pk <;> simp only [h3]
  · exact ⟨rfl, by simp⟩
  rcases h4 : CryptoEngine.import_state sb with _ | st <;> simp only [h4]
  · exact ⟨rfl, by simp⟩
  cases co
  · rw [if_pos rfl]
    exact ⟨rfl, by simp⟩
  rw [if_neg (by simp)]
  by_cases hd : CryptoEngine.remaining st = 0
  · simp only [CryptoEngine.sign, if_pos hd]
    exact ⟨by simp [persistedBefore, touches, writesOk], by simp⟩
  simp only [CryptoEngine.sign, if_neg hd]
  cases ss <;> cases gs <;>
    simp_all [save_data, persistedBefore, touches, writesOk]

/-- C1: for every successful sign-and-commit run of the XMSS and HSS sign
showcases, the advanced private-key state is durably written to the state
file strictly before the signature file is written, and on no run (success
or failure) is the signature file touched before a completed write of the
state file; on every successful run the signature file does get written. -/
theorem c1_state_persisted_before_signature (flt : SignFaults) (fs0 : FS)
    (pf sf gf : String) (hne : sf ≠ gf) :
    persistedBefore sf gf (showcase_xmss_sign flt fs0 pf sf gf).tr = true ∧
    ((showcase_xmss_sign flt fs0 pf sf gf).ret = .IQR_OK →
      (showcase_xmss_sign flt fs0 pf sf gf).tr.any (writesOk gf) = true) ∧
    persistedBefore sf gf (showcase_hss_sign flt fs0 pf sf gf).tr = true ∧
    ((showcase_hss_sign flt fs0 pf sf gf).ret = .IQR_OK →
      (showcase_hss_sign flt fs0 pf sf gf).tr.any (writesOk gf) = true) := by
  have hbe : (sf == gf) = false := by
    simpa using hne
  obtain ⟨hx1, hx2⟩ := xmss_sign_persist_aux flt fs0 pf sf gf hbe
  obtain ⟨hh1, hh2⟩ := hss_sign_persist_aux flt fs0 pf sf gf hbe
  exact ⟨hx1, hx2, hh1, hh2⟩

/-- Witness for C1 at a concrete run: default file names, no faults, a
fresh height-10 state. -/
theorem c1_state_persisted_before_signature_witness :
    persistedBefore "priv.state" "sig.dat"
      (showcase_xmss_sign ⟨true, .ok, .ok⟩
        [("priv.key", [7]), ("priv.state", [0, 1024])]
        "priv.key" "priv.state" "sig.dat").tr = true :=
  (c1_state_persisted_before_signature ⟨true, .ok, .ok⟩
    [("priv.key", [7]), ("priv.state", [0, 1024])]
    "priv.key" "priv.state" "sig.dat" (by decide)).1

/-- C2 counterexample: the claim states that sign-and-commit on an
exhausted state fails before invoking the CryptoEngine sign primitive, for
both cited implementations.  The HSS sign showcase has no capacity
pre-check: on a depleted state (here 5 of 5 leaves consumed) the run does
invoke the sign primitive, which is what reports the depletion. -/
theorem c2_counterexample_hss_invokes_sign_primitive :
    (showcase_hss_sign ⟨true, .ok, .ok⟩
      [("priv.key", [7]), ("priv.state", [5, 5])] "priv.key" "priv.state" "sig.dat").ret =
      .IQR_ESTATEDEPLETED ∧
    Event.engineSign ∈ (showcase_hss_sign ⟨true, .ok, .ok⟩
      [("priv.key", [7]), ("priv.state", [5, 5])] "priv.key" "priv.state" "sig.dat").tr := by
  decide

/-- C2 amended: on a state with no remaining signatures, the XMSS sign
showcase queries capacity first and fails with IQR_ESTATEDEPLETED without
invoking the sign primitive and without touching durable storage, while the
HSS sign showcase invokes the sign primitive, which itself fails with
IQR_ESTATEDEPLETED, likewise without touching durable storage; for both,
a repeated call on the same exhausted state fails identically. -/
theorem c2_amended_depleted_always_fails (flt : SignFaults) (fs0 : FS)
    (pf sf gf : String) (pb sb : Blob) (s : PrivateKeyState)
    (hco : flt.callocOk = true)
    (hp : fsRead fs0 pf = some pb) (hpb : pb ≠ [])
    (hs : fsRead fs0 sf = some sb)
    (hsi : CryptoEngine.import_state sb = some s)
    (hdep : CryptoEngine.remaining s = 0) :
    showcase_xmss_sign flt fs0 pf sf gf =
      ⟨.IQR_ESTATEDEPLETED, fs0, [], sign_end (some pb) (some sb) none⟩ ∧
    showcase_hss_sign flt fs0 pf sf gf =
      ⟨.IQR_ESTATEDEPLETED, fs0, [.engineSign], sign_end (some pb) (some sb) (some [])⟩ ∧
    showcase_xmss_sign flt (showcase_xmss_sign flt fs0 pf sf gf).fs pf sf gf =
      showcase_xmss_sign flt fs0 pf sf gf ∧
    showcase_hss_sign flt (showcase_hss_sign flt fs0 pf sf gf).fs pf sf gf =
      showcase_hss_sign flt fs0 pf sf gf := by
  have hx : showcase_xmss_sign flt fs0 pf sf gf =
      ⟨.IQR_ESTATEDEPLETED, fs0, [], sign_end (some pb) (some sb) none⟩ := by
    simp only [showcase_xmss_sign, hp, hs, importPrivateKey, if_neg hpb, hsi,
      CryptoEngine.signature_count]
    rw [if_pos hdep]
  have hh : showcase_hss_sign flt fs0 pf sf gf =
      ⟨.IQR_ESTATEDEPLETED, fs0, [.engineSign], sign_end (some pb) (some sb) (some [])⟩ := by
    simp only [showcase_hss_sign, hp, hs, importPrivateKey, if_neg hpb, hsi, hco]
    rw [if_neg (by simp)]
    simp only [CryptoEngine.sign, if_pos hdep]
  refine ⟨hx, hh, ?_, ?_⟩
  · rw [hx]
    exact hx
  · rw [hh]
    exact hh

/-- Witness for C2 amended at a concrete exhausted state. -/
theorem c2_amended_depleted_always_fails_witness :
    showcase_xmss_sign ⟨true, .ok, .ok⟩ [("priv.key", [7]), ("priv.state", [5, 5])]
      "priv.key" "priv.state" "sig.dat" =
      ⟨.IQR_ESTATEDEPLETED, [("priv.key", [7]), ("priv.state", [5, 5])], [],
       sign_end (some [7]) (some [5, 5]) none⟩ :=
  (c2_amended_depleted_always_fails ⟨true, .ok, .ok⟩
    [("priv.key", [7]), ("priv.state", [5, 5])] "priv.key" "priv.state" "sig.dat"
    [7] [5, 5] ⟨5, 5⟩ rfl (by decide) (by decide) (by decide) (by decide) (by decide)).1

/-- C3 at the failing input: a sign-and-commit run whose durable state
write fails during fwrite.  The operation does fail as a whole and the
signature file is never written, but the on-disk state blob is NOT
unchanged: fopen("wb") in save_data truncated the state file in place, so
the failed run leaves it holding the partial blob of the interrupted write
instead of the pre-call blob [0, 1024]. -/
theorem c3_failed_persist_leaves_truncated_state_blob :
    (showcase_xmss_sign ⟨true, .writeFail 1, .ok⟩
      [("priv.key", [7]), ("priv.state", [0, 1024])]
      "priv.key" "priv.state" "sig.dat").ret = .IQR_EBADVALUE ∧
    fsRead (showcase_xmss_sign ⟨true, .writeFail 1, .ok⟩
      [("priv.key", [7]), ("priv.state", [0, 1024])]
      "priv.key" "priv.state" "sig.dat").fs "sig.dat" = none ∧
    fsRead (showcase_xmss_sign ⟨true, .writeFail 1, .ok⟩
      [("priv.key", [7]), ("priv.state", [0, 1024])]
      "priv.key" "priv.state" "sig.dat").fs "priv.state" = some [1] ∧
    fsRead [("priv.key", [7]), ("priv.state", [0, 1024])] "priv.state" = some [0, 1024] ∧
    ¬ ([1] : Blob) = [0, 1024] := by
  decide

/-- C7 at the failing input: save_data is not atomic from a reader's
perspective.  Writing the new blob [1, 1024] over a state file holding
[0, 1024], interrupted after one byte, returns a failure but leaves the
file holding [1]: a partial blob that is neither the previous persisted
blob nor the new one, so the previous blob did not remain the effective
state.  save_data opens with fopen("wb") (truncating in place) and uses a
single fwrite with no temporary file, rename or fsync. -/
theorem c7_save_data_not_atomic :
    save_data (.writeFail 1) [("priv.state", [0, 1024])] "priv.state" [1, 1024] =
      ⟨.IQR_EBADVALUE, [("priv.state", [1])], [.fileTouch "priv.state" [1]]⟩ ∧
    ¬ ([1] : Blob) = [0, 1024] ∧
    ¬ ([1] : Blob) = [1, 1024] := by
  decide

/-- C4: a detach request exceeding the remaining capacity fails with the
InsufficientCapacityError of the modelled detach primitive, mutates neither
the in-memory parent state nor any file (the file system is byte-for-byte
unchanged, so the parent blob is not rewritten), and writes no detached
state; this holds for the XMSS and the XMSS^MT detach showcases alike. -/
theorem c4_detach_insufficient_capacity_unchanged (flt : DetachFaults) (fs0 : FS)
    (pf sf df : String) (n : Nat) (pb sb : Blob) (s : PrivateKeyState)
    (hp : fsRead fs0 pf = some pb) (hpb : pb ≠ [])
    (hs : fsRead fs0 sf = some sb)
    (hsi : CryptoEngine.import_state sb = some s)
    (hn : CryptoEngine.remaining s < n) :
    CryptoEngine.detach_state s n = (.IQR_EINSUFFICIENTCAPACITY, s, none) ∧
    showcase_xmss_detach flt fs0 pf sf n df =
      ⟨.IQR_EINSUFFICIENTCAPACITY, fs0, [.engineDetach], detach_end (some pb) (some sb) none⟩ ∧
    showcase_xmssmt_detach flt fs0 pf sf n df =
      ⟨.IQR_EINSUFFICIENTCAPACITY, fs0, [.engineDetach], detach_end (some pb) (some sb) none⟩ := by
  have hd : CryptoEngine.detach_state s n = (.IQR_EINSUFFICIENTCAPACITY, s, none) := by
    simp only [CryptoEngine.detach_state]
    rw [if_pos (Or.inr hn)]
  refine ⟨hd, ?_, ?_⟩ <;>
    simp only [showcase_xmss_detach, showcase_xmssmt_detach, hp, hs, importPrivateKey,
      if_neg hpb, hsi, hd]

/-- Witness for C4: detaching 11 signatures from a parent with 10
remaining. -/
theorem c4_detach_insufficient_capacity_unchanged_witness :
    showcase_xmss_detach ⟨.ok, true, .ok⟩ [("priv.key", [7]), ("priv.state", [0, 10])]
      "priv.key" "priv.state" 11 "detached.state" =
      ⟨.IQR_EINSUFFICIENTCAPACITY, [("priv.key", [7]), ("priv.state", [0, 10])],
       [.engineDetach], detach_end (some [7]) (some [0, 10]) none⟩ :=
  (c4_detach_insufficient_capacity_unchanged ⟨.ok, true, .ok⟩
    [("priv.key", [7]), ("priv.state", [0, 10])] "priv.key" "priv.state" "detached.state"
    11 [7] [0, 10] ⟨0, 10⟩ (by decide) (by decide) (by decide) (by decide) (by decide)).2.1

/-- C5: a successful detach of n signatures from a parent with remaining
capacity r reserves the half-open range of length n starting at the
parent's previous next_leaf_index: the detached state starts at that index
with remaining count n, the parent advances to remaining r - n, and the
parent's next successful sign consumes exactly the first leaf index after
the detached range. -/
theorem c5_detach_splits_capacity (s : PrivateKeyState) (n : Nat)
    (h1 : 1 ≤ n) (h2 : n ≤ CryptoEngine.remaining s) :
    CryptoEngine.detach_state s n =
      (.IQR_OK, ⟨s.next_leaf_index + n, s.leaf_end⟩,
       some ⟨s.next_leaf_index, s.next_leaf_index + n⟩) ∧
    CryptoEngine.remaining ⟨s.next_leaf_index, s.next_leaf_index + n⟩ = n ∧
    CryptoEngine.remaining ⟨s.next_leaf_index + n, s.leaf_end⟩ =
      CryptoEngine.remaining s - n ∧
    (0 < CryptoEngine.remaining s - n →
      CryptoEngine.sign ⟨s.next_leaf_index + n, s.leaf_end⟩ =
        (.IQR_OK, ⟨s.next_leaf_index + n + 1, s.leaf_end⟩, some [s.next_leaf_index + n])) := by
  have hrd : CryptoEngine.remaining ⟨s.next_leaf_index, s.next_leaf_index + n⟩ = n := by
    simp [CryptoEngine.remaining]
  have hrp : CryptoEngine.remaining ⟨s.next_leaf_index + n, s.leaf_end⟩ =
      CryptoEngine.remaining s - n := by
    simp only [CryptoEngine.remaining]
    omega
  refine ⟨?_, hrd, hrp, ?_⟩
  · simp only [CryptoEngine.detach_state]
    rw [if_neg (by omega)]
  · intro h
    simp only [CryptoEngine.sign, hrp]
    rw [if_neg (by omega)]

/-- Witness for C5 at the Scenario B numbers: remaining 500, detach 100. -/
theorem c5_detach_splits_capacity_witness :
    CryptoEngine.detach_state ⟨0, 500⟩ 100 = (.IQR_OK, ⟨100, 500⟩, some ⟨0, 100⟩) :=
  (c5_detach_splits_capacity ⟨0, 500⟩ 100 (by decide) (by decide)).1

/-- Helper: the persist-then-hand-out discipline holds on every trace of
the XMSS detach showcase, and the detached-state file is written on every
successful run. -/
theorem xmss_detach_persist_aux (flt : DetachFaults) (fs0 : FS)
    (pf sf df : String) (n : Nat) (hbe : (sf == df) = false) :
    persistedBefore sf df (showcase_xmss_detach flt fs0 pf sf n df).tr = true ∧
    ((showcase_xmss_detach flt fs0 pf sf n df).ret = .IQR_OK →
      (showcase_xmss_detach flt fs0 pf sf n df).tr.any (writesOk df) = true) := by
  obtain ⟨ss, co, ds⟩ := flt
  simp only [showcase_xmss_detach]
  rcases h1 : fsRead fs0 pf with _ | pb <;> simp only [h1]
  · exact ⟨rfl, by simp⟩
  rcases h2 : fsRead fs0 sf with _ | sb <;> simp only [h2]
  · exact ⟨rfl, by simp⟩
  rcases h3 : importPrivateKey pb with _ | pk <;> simp only [h3]
  · exact ⟨rfl, by simp⟩
  rcases h4 : CryptoEngine.import_state sb with _ | st <;> simp only [h4]
  · exact ⟨rfl, by simp⟩
  by_cases hn : n < 1 ∨ CryptoEngine.remaining st < n
  · simp only [CryptoEngine.detach_state, if_pos hn]
    exact ⟨by simp [persistedBefore, touches, writesOk], by simp⟩
  simp only [CryptoEngine.detach_state, if_neg hn]
  cases ss <;> cases ds <;> cases co <;>
    simp_all [save_data, persistedBefore, touches, writesOk]

/-- Helper: the persist-then-hand-out discipline holds on every trace of
the XMSS^MT detach showcase, and the detached-state file is written on
every successful run. -/
theorem xmssmt_detach_persist_aux (flt : DetachFaults) (fs0 : FS)
    (pf sf df : String) (n : Nat) (hbe : (sf == df) = false) :
    persistedBefore sf df (showcase_xmssmt_detach flt fs0 pf sf n df).tr = true ∧
    ((showcase_xmssmt_detach flt fs0 pf sf n df).ret = .IQR_OK →
      (showcase_xmssmt_detach flt fs0 pf sf n df).tr.any (writesOk df) = true) := by
  obtain ⟨ss, co, ds⟩ := flt
  simp only [showcase_xmssmt_detach]
  rcases h1 : fsRead fs0 pf with _ | pb <;> simp only [h1]
  · exact ⟨rfl, by simp⟩
  rcases h2 : fsRead fs0 sf with _ | sb <;> simp only [h2]
  · exact ⟨rfl, by simp⟩
  rcases h3 : importPrivateKey pb with _ | pk <;> simp only [h3]
  · exact ⟨rfl, by simp⟩
  rcases h4 : CryptoEngine.import_state sb with _ | st <;> simp only [h4]
  · exact ⟨rfl, by simp⟩
  by_cases hn : n < 1 ∨ CryptoEngine.remaining st < n
  · simp only [CryptoEngine.detach_state, if_pos hn]
    exact ⟨by simp [persistedBefore, touches, writesOk], by simp⟩
  simp only [CryptoEngine.detach_state, if_neg hn]
  cases ss <;> cases ds <;> cases co <;>
    simp_all [save_data, persistedBefore, touches, writesOk]

/-- C6: on every run of the XMSS and XMSS^MT detach showcases, the
detached-state file is touched in no way before a completed durable write
of the parent's advanced state file, and on every successful run the
detached state does get written out (after the parent's new cursor was
persisted). -/
theorem c6_parent_persisted_before_detached_state (flt : DetachFaults) (fs0 : FS)
    (pf sf df : String) (n : Nat) (hne : sf ≠ df) :
    persistedBefore sf df (showcase_xmss_detach flt fs0 pf sf n df).tr = true ∧
    ((showcase_xmss_detach flt fs0 pf sf n df).ret = .IQR_OK →
      (showcase_xmss_detach flt fs0 pf sf n df).tr.any (writesOk df) = true) ∧
    persistedBefore sf df (showcase_xmssmt_detach flt fs0 pf sf n df).tr = true ∧
    ((showcase_xmssmt_detach flt fs0 pf sf n df).ret = .IQR_OK →
      (showcase_xmssmt_detach flt fs0 pf sf n df).tr.any (writesOk df) = true) := by
  have hbe : (sf == df) = false := by
    simpa using hne
  obtain ⟨hx1, hx2⟩ := xmss_detach_persist_aux flt fs0 pf sf df n hbe
  obtain ⟨hm1, hm2⟩ := xmssmt_detach_persist_aux flt fs0 pf sf df n hbe
  exact ⟨hx1, hx2, hm1, hm2⟩

/-- Witness for C6 at a concrete faultless detach of 100 from 500. -/
theorem c6_parent_persisted_before_detached_state_witness :
    persistedBefore "priv.state" "detached.state"
      (showcase_xmss_detach ⟨.ok, true, .ok⟩
        [("priv.key", [7]), ("priv.state", [0, 500])]
        "priv.key" "priv.state" 100 "detached.state").tr = true :=
  (c6_parent_persisted_before_detached_state ⟨.ok, true, .ok⟩
    [("priv.key", [7]), ("priv.state", [0, 500])]
    "priv.key" "priv.state" "detached.state" 100 (by decide)).1

/-- C8: the verify showcases are pure with respect to everything but their
inputs: whatever the underlying verify primitive vf computes, a run changes
no file (in particular the public key blob on disk is untouched), and two
runs with identical inputs return identical results. -/
theorem c8_verify_is_pure (vf : Blob → Blob → Blob → Bool) (digest : Blob) (fs0 : FS)
    (pub_file sig_file message_file : String) :
    (showcase_xmssmt_verify vf digest fs0 pub_file sig_file).2 = fs0 ∧
    (showcase_rainbow_verify vf fs0 pub_file sig_file message_file).2 = fs0 ∧
    fsRead (showcase_xmssmt_verify vf digest fs0 pub_file sig_file).2 pub_file =
      fsRead fs0 pub_file ∧
    showcase_xmssmt_verify vf digest fs0 pub_file sig_file =
      showcase_xmssmt_verify vf digest fs0 pub_file sig_file ∧
    showcase_rainbow_verify vf fs0 pub_file sig_file message_file =
      showcase_rainbow_verify vf fs0 pub_file sig_file message_file := by
  have h1 : (showcase_xmssmt_verify vf digest fs0 pub_file sig_file).2 = fs0 := by
    unfold showcase_xmssmt_verify
    repeat' split
    all_goals rfl
  have h2 : (showcase_rainbow_verify vf fs0 pub_file sig_file message_file).2 = fs0 := by
    unfold showcase_rainbow_verify
    repeat' split
    all_goals rfl
  exact ⟨h1, h2, by rw [h1], rfl, rfl⟩

/-- Helper: any buffer recorded under the name priv_raw by the sign end
block holds only zero bytes, because the end block passes priv_raw through
secure_memzero before free. -/
theorem sign_end_priv_wiped (pr st sg : Option Blob) (b : Blob)
    (h : ("priv_raw", b) ∈ sign_end pr st sg) : b.all (· == 0) = true := by
  rcases pr with _ | p <;> rcases st with _ | s <;> rcases sg with _ | g <;>
    simp_all [sign_end, secure_memzero, List.all_eq_true]

/-- Helper: any buffer recorded under the name priv_raw by the detach end
block holds only zero bytes. -/
theorem detach_end_priv_wiped (pr st dr : Option Blob) (b : Blob)
    (h : ("priv_raw", b) ∈ detach_end pr st dr) : b.all (· == 0) = true := by
  rcases pr with _ | p <;> rcases st with _ | s <;> rcases dr with _ | d <;>
    simp_all [detach_end, secure_memzero, List.all_eq_true]

/-- Helper: on every exit path of the XMSS sign showcase, a buffer freed
under the name priv_raw holds only zero bytes. -/
theorem xmss_sign_freed_aux (flt : SignFaults) (fs0 : FS) (pf sf gf : String)
    (b : Blob)
    (hb : ("priv_raw", b) ∈ (showcase_xmss_sign flt fs0 pf sf gf).freed) :
    b.all (· == 0) = true := by
  obtain ⟨co, ss, gs⟩ := flt
  simp only [showcase_xmss_sign] at hb
  rcases h1 : fsRead fs0 pf with _ | pb <;> simp only [h1] at hb
  · exact sign_end_priv_wiped none none none b hb
  rcases h2 : fsRead fs0 sf with _ | sb <;> simp only [h2] at hb
  · exact sign_end_priv_wiped (some pb) none none b hb
  rcases h3 : importPrivateKey pb with _ | pk <;> simp only [h3] at hb
  · exact sign_end_priv_wiped (some pb) (some sb) none b hb
  rcases h4 : CryptoEngine.import_state sb with _ | st <;> simp only [h4] at hb
  · exact sign_end_priv_wiped (some pb) (some sb) none b hb
  by_cases hd : (CryptoEngine.signature_count st).2 = 0
  · rw [if_pos hd] at hb
    exact sign_end_priv_wiped (some pb) (some sb) none b hb
  rw [if_neg hd] at hb
  cases co
  · rw [if_pos rfl] at hb
    exact sign_end_priv_wiped (some pb) (some sb) none b hb
  rw [if_neg (by simp)] at hb
  have hrem : ¬(CryptoEngine.remaining st = 0) := hd
  simp only [CryptoEngine.sign, if_neg hrem] at hb
  cases ss <;> cases gs <;> simp only [save_data] at hb <;>
    first
    | exact sign_end_priv_wiped _ _ _ b hb
    | (simp only [ne_eq, reduceCtorEq, not_false_eq_true, not_true_eq_false,
        if_true, if_false, ite_true, ite_false, ite_self] at hb
       exact sign_end_priv_wiped _ _ _ b hb)

/-- Helper: on every exit path of the HSS sign showcase, a buffer freed
under the name priv_raw holds only zero bytes. -/
theorem hss_sign_freed_aux (flt : SignFaults) (fs0 : FS) (pf sf gf : String)
    (b : Blob)
    (hb : ("priv_raw", b) ∈ (showcase_hss_sign flt fs0 pf sf gf).freed) :
    b.all (· == 0) = true := by
  obtain ⟨co, ss, gs⟩ := flt
  simp only [showcase_hss_sign] at hb
  rcases h1 : fsRead fs0 pf with _ | pb <;> simp only [h1] at hb
  · exact sign_end_priv_wiped none none none b hb
  rcases h2 : fsRead fs0 sf with _ | sb <;> simp only [h2] at hb
  · exact sign_end_priv_wiped (some pb) none none b hb
  rcases h3 : importPrivateKey pb with _ | pk <;> simp only [h3] at hb
  · exact sign_end_priv_wiped (some pb) (some sb) none b hb
  rcases h4 : CryptoEngine.import_state sb with _ | st <;> simp only [h4] at hb
  · exact sign_end_priv_wiped (some pb) (some sb) none b hb
  cases co
  · rw [if_pos rfl] at hb
    exact sign_end_priv_wiped (some pb) (some sb) none b hb
  rw [if_neg (by simp)] at hb
  by_cases hd : CryptoEngine.remaining st = 0
  · simp only [CryptoEngine.sign, if_pos hd] at hb
    exact sign_end_priv_wiped (some pb) (some sb) (some []) b hb
  simp only [CryptoEngine.sign, if_neg hd] at hb
  cases ss <;> cases gs <;> simp only [save_data] at hb <;>
    first
    | exact sign_end_priv_wiped _ _ _ b hb
    | (simp only [ne_eq, reduceCtorEq, not_false_eq_true, not_true_eq_false,
        if_true, if_false, ite_true, ite_false, ite_self] at hb
       exact sign_end_priv_wiped _ _ _ b hb)

/-- Helper: on every exit path of the XMSS detach showcase, a buffer freed
under the name priv_raw holds only zero bytes. -/
theorem xmss_detach_freed_aux (flt : DetachFaults) (fs0 : FS) (pf sf df : String)
    (n : Nat) (b : Blob)
    (hb : ("priv_raw", b) ∈ (showcase_xmss_detach flt fs0 pf sf n df).freed) :
    b.all (· == 0) = true := by
  obtain ⟨ss, co, ds⟩ := flt
  simp only [showcase_xmss_detach] at hb
  rcases h1 : fsRead fs0 pf with _ | pb <;> simp only [h1] at hb
  · exact detach_end_priv_wiped none none none b hb
  rcases h2 : fsRead fs0 sf with _ | sb <;> simp only [h2] at hb
  · exact detach_end_priv_wiped (some pb) none none b hb
  rcases h3 : importPrivateKey pb with _ | pk <;> simp only [h3] at hb
  · exact detach_end_priv_wiped (some pb) (some sb) none b hb
  rcases h4 : CryptoEngine.import_state sb with _ | st <;> simp only [h4] at hb
  · exact detach_end_priv_wiped (some pb) (some sb) none b hb
  by_cases hn : n < 1 ∨ CryptoEngine.remaining st < n
  · simp only [CryptoEngine.detach_state, if_pos hn] at hb
    exact detach_end_priv_wiped (some pb) (some sb) none b hb
  simp only [CryptoEngine.detach_state, if_neg hn] at hb
  cases ss <;> cases ds <;> cases co <;> simp only [save_data] at hb <;>
    first
    | exact detach_end_priv_wiped _ _ _ b hb
    | (simp only [ne_eq, reduceCtorEq, not_false_eq_true, not_true_eq_false,
        if_true, if_false, ite_true, ite_false, ite_self] at hb
       exact detach_end_priv_wiped _ _ _ b hb)

/-- Helper: on every exit path of the XMSS^MT detach showcase, a buffer
freed under the name priv_raw holds only zero bytes. -/
theorem xmssmt_detach_freed_aux (flt : DetachFaults) (fs0 : FS) (pf sf df : String)
    (n : Nat) (b : Blob)
    (hb : ("priv_raw", b) ∈ (showcase_xmssmt_detach flt fs0 pf sf n df).freed) :
    b.all (· == 0) = true := by
  obtain ⟨ss, co, ds⟩ := flt
  simp only [showcase_xmssmt_detach] at hb
  rcases h1 : fsRead fs0 pf with _ | pb <;> simp only [h1] at hb
  · exact detach_end_priv_wiped none none none b hb
  rcases h2 : fsRead fs0 sf with _ | sb <;> simp only [h2] at hb
  · exact detach_end_priv_wiped (some pb) none none b hb
  rcases h3 : importPrivateKey pb with _ | pk <;> simp only [h3] at hb
  · exact detach_end_priv_wiped (some pb) (some sb) none b hb
  rcases h4 : CryptoEngine.import_state sb with _ | st <;> simp only [h4] at hb
  · exact detach_end_priv_wiped (some pb) (some sb) none b hb
  by_cases hn : n < 1 ∨ CryptoEngine.remaining st < n
  · simp only [CryptoEngine.detach_state, if_pos hn] at hb
    exact detach_end_priv_wiped (some pb) (some sb) none b hb
  simp only [CryptoEngine.detach_state, if_neg hn] at hb
  cases ss <;> cases ds <;> cases co <;> simp only [save_data] at hb <;>
    first
    | exact detach_end_priv_wiped _ _ _ b hb
    | (simp only [ne_eq, reduceCtorEq, not_false_eq_true, not_true_eq_false,
        if_true, if_false, ite_true, ite_false, ite_self] at hb
       exact detach_end_priv_wiped _ _ _ b hb)

/-- C9 counterexample: the claim states that the private-key state raw
bytes are wiped before being freed on every exit path.  On the ordinary
successful signing run below, the state_raw buffer is freed holding the
exported advanced state bytes [1, 1024], which are not zero: the end block
of showcase_xmss_sign wipes only priv_raw and calls free(state_raw) with
its contents intact. -/
theorem c9_counterexample_state_raw_freed_unwiped :
    ("state_raw", [1, 1024]) ∈ (showcase_xmss_sign ⟨true, .ok, .ok⟩
      [("priv.key", [7]), ("priv.state", [0, 1024])]
      "priv.key" "priv.state" "sig.dat").freed ∧
    ([1, 1024] : Blob).all (· == 0) = false := by
  decide

/-- C9 amended: on every exit path of the sign and detach showcases the
private-key raw bytes are wiped (every buffer freed under the name priv_raw
holds only zeroes), while the private-key state raw bytes are freed without
wiping. -/
theorem c9_amended_priv_key_raw_wiped_every_exit (flt : SignFaults)
    (flt2 : DetachFaults) (fs0 : FS) (pf sf gf df : String) (n : Nat) (b : Blob) :
    (("priv_raw", b) ∈ (showcase_xmss_sign flt fs0 pf sf gf).freed →
      b.all (· == 0) = true) ∧
    (("priv_raw", b) ∈ (showcase_hss_sign flt fs0 pf sf gf).freed →
      b.all (· == 0) = true) ∧
    (("priv_raw", b) ∈ (showcase_xmss_detach flt2 fs0 pf sf n df).freed →
      b.all (· == 0) = true) ∧
    (("priv_raw", b) ∈ (showcase_xmssmt_detach flt2 fs0 pf sf n df).freed →
      b.all (· == 0) = true) := by
  refine ⟨fun hb => ?_, fun hb => ?_, fun hb => ?_, fun hb => ?_⟩
  · exact xmss_sign_freed_aux flt fs0 pf sf gf b hb
  · exact hss_sign_freed_aux flt fs0 pf sf gf b hb
  · exact xmss_detach_freed_aux flt2 fs0 pf sf df n b hb
  · exact xmssmt_detach_freed_aux flt2 fs0 pf sf df n b hb

/-- Witness for C9 amended: the success run frees priv_raw as [0], the wipe
of the loaded private key [7]. -/
theorem c9_amended_priv_key_raw_wiped_every_exit_witness :
    ([0] : Blob).all (· == 0) = true :=
  (c9_amended_priv_key_raw_wiped_every_exit ⟨true, .ok, .ok⟩ ⟨.ok, true, .ok⟩
    [("priv.key", [7]), ("priv.state", [0, 1024])]
    "priv.key" "priv.state" "sig.dat" "detached.state" 1 [0]).1 (by decide)

/-- C10: every decimal digit string the detach command line accepts for
num-sigs yields the parsed 64-bit value reduced modulo 2 to the 32 (the
uint32 cast), and in particular the accepted input 4294967296 = 2 to the 32
is silently turned into a request to detach 0 signatures. -/
theorem c10_num_sigs_truncated_mod_uint32 :
    (∀ s n, parse_num_sigs s = some n → n = decimalValue s.data % 2 ^ 32) ∧
    parse_num_sigs "4294967296" = some 0 ∧
    decimalValue ("4294967296".data) = 2 ^ 32 := by
  refine ⟨?_, by decide, by decide⟩
  intro s n h
  simp only [parse_num_sigs] at h
  split_ifs at h
  exact (Option.some.inj h).symm

/-- Witness for C10 at the input 4294967296. -/
theorem c10_num_sigs_truncated_mod_uint32_witness :
    (0 : Nat) = decimalValue ("4294967296".data) % 2 ^ 32 :=
  c10_num_sigs_truncated_mod_uint32.1 "4294967296" 0 (by decide)
